import Mathlib

/-!
Verification of the upload-session orchestrator of `surmount-s4/Upload_optimization`
(`src/backend/services/minio_multipart.py` and `src/backend/endpoints/upload.py`)
against its natural-language specification.

File sizes, chunk sizes and part counts are Python `int`s, embedded as `Int`.
Python's `math.ceil(a / b)` (used at `minio_multipart.py:63,69,106`) is embedded
as exact ceiling division `cdiv`; Python computes it through a binary64 float
quotient, which agrees with the exact value for all quotients with numerator
below 2^52 — every concrete input evaluated in this file is far below that.
Python's floor division `//` and `%` coincide with Lean's `Int` `/` (`Int.ediv`)
and `%` (`Int.emod`) for the positive divisors used here.
-/

set_option maxRecDepth 100000

namespace UploadOpt

/-- Configuration of `MinioMultipartService.__init__` (`minio_multipart.py:33-35`):
`chunk_size_mb = int(os.getenv("CHUNK_SIZE_MB", "128"))`,
`max_parts = int(os.getenv("MAX_PARTS", "10000"))`. -/
structure Config where
  chunk_size_mb : Int
  max_parts : Int
deriving DecidableEq, Repr

/-- The defaults: `CHUNK_SIZE_MB=128`, `MAX_PARTS=10000`. -/
def defaultConfig : Config := { chunk_size_mb := 128, max_parts := 10000 }

/-- Ceiling division: `math.ceil(a / b)` for `b > 0`. `-((-a) / b)` with `/` being
`Int.ediv` (floor for positive `b`) is the exact ceiling of the rational `a / b`. -/
def cdiv (a b : Int) : Int := -((-a) / b)

/-- `MinioMultipartService.calculate_optimal_chunk_size` (`minio_multipart.py:48-74`),
translated line by line.  Note the source's `min_chunk` (5 MiB) is computed but
never used, and the function has no failure path: it always returns a chunk size. -/
def calculate_optimal_chunk_size (cfg : Config) (file_size : Int) : Int :=
  let min_chunk : Int := 5 * 1024 * 1024
  let max_chunk : Int := 512 * 1024 * 1024
  let preferred : Int := cfg.chunk_size_mb * 1024 * 1024
  let parts_needed : Int := cdiv file_size preferred
  if parts_needed ≤ cfg.max_parts then
    preferred
  else
    let min_required : Int := cdiv file_size cfg.max_parts
    let aligned : Int := ((min_required / (16 * 1024 * 1024)) + 1) * (16 * 1024 * 1024)
    min aligned max_chunk

/-- The chunk plan produced by `initiate_upload` (`minio_multipart.py:104-106`):
`chunk_size = self.calculate_optimal_chunk_size(file_size)`;
`total_parts = math.ceil(file_size / chunk_size)`. -/
def planChunks (cfg : Config) (file_size : Int) : Int × Int :=
  let chunk_size := calculate_optimal_chunk_size cfg file_size
  (chunk_size, cdiv file_size chunk_size)

example : calculate_optimal_chunk_size defaultConfig 1073741824 = 134217728 := by decide
example : planChunks defaultConfig 1073741824 = (134217728, 8) := by decide
example : calculate_optimal_chunk_size defaultConfig 5368709120001 = 536870912 := by decide
example : planChunks defaultConfig 5368709120001 = (536870912, 10001) := by decide
example : calculate_optimal_chunk_size defaultConfig 1509949440000 = 167772160 := by decide
example : cdiv 1509949440000 10000 = 150994944 := by decide

/-- The result dict of `initiate_upload` (`minio_multipart.py:113-119`). -/
structure UploadSession where
  upload_id : String
  bucket : String
  object_key : String
  chunk_size : Int
  total_parts : Int
deriving DecidableEq, Repr

/-- A call the service issues against the object store. -/
inductive StoreOp where
  | createMultipart (bucket object_key content_type : String)
deriving DecidableEq, Repr

/-- `MinioMultipartService.initiate_upload` (`minio_multipart.py:76-119`).
The store's reply to `_create_multipart_upload` (the parsed `UploadId`) is passed
in as `store_upload_id`; the timestamped `object_key` derivation (lines 100-102)
is likewise caller-supplied, as it depends on the wall clock.  The second
component is the trace of store calls the function issues.  Faithful to the
source, `file_size` is never validated: the body unconditionally computes the
chunk plan and issues the multipart-create call. -/
def initiate_upload (cfg : Config) (bucket object_key content_type : String)
    (file_size : Int) (store_upload_id : String) : UploadSession × List StoreOp :=
  let chunk_size := calculate_optimal_chunk_size cfg file_size
  let total_parts := cdiv file_size chunk_size
  ({ upload_id := store_upload_id, bucket := bucket, object_key := object_key,
     chunk_size := chunk_size, total_parts := total_parts },
   [StoreOp.createMultipart bucket object_key content_type])

/-- A `{part_number, etag}` dict (`upload.py:46-48`, `minio_multipart.py:253`). -/
structure Part where
  part_number : Int
  etag : String
deriving DecidableEq, Repr

/-- The sort key relation of `sorted(parts, key=lambda x: x["part_number"])`. -/
def partLE (a b : Part) : Prop := a.part_number ≤ b.part_number

instance : DecidableRel partLE :=
  fun a b => inferInstanceAs (Decidable (a.part_number ≤ b.part_number))

instance : IsTotal Part partLE := ⟨fun a b => Int.le_total a.part_number b.part_number⟩

instance : IsTrans Part partLE := ⟨fun _ _ _ h1 h2 => Int.le_trans h1 h2⟩

/-- `sorted(parts, key=lambda x: x["part_number"])` (`minio_multipart.py:261`):
a stable sort ascending by part number; `List.insertionSort` is stable, so it
computes the same list as CPython's stable sort under this key. -/
def sortParts (parts : List Part) : List Part := List.insertionSort partLE parts

/-- Text escaping performed by `xml.etree.ElementTree` on element text. -/
def xmlEscapeChar (c : Char) : String :=
  if c = '&' then "&amp;" else if c = '<' then "&lt;" else if c = '>' then "&gt;"
  else String.singleton c

def xmlEscape (s : String) : String := String.join (s.data.map xmlEscapeChar)

/-- One `<Part>` element of the completion body (`minio_multipart.py:265-270`). -/
def serializePart (p : Part) : String :=
  "<Part><PartNumber>" ++ toString p.part_number ++ "</PartNumber><ETag>"
    ++ xmlEscape p.etag ++ "</ETag></Part>"

/-- The serialized `CompleteMultipartUpload` wire payload built by
`complete_upload` (`minio_multipart.py:260-272`): parts sorted ascending by
part number, then serialized in order. -/
def completePayload (parts : List Part) : String :=
  "<CompleteMultipartUpload>"
    ++ String.join ((sortParts parts).map serializePart)
    ++ "</CompleteMultipartUpload>"

example :
    completePayload [⟨3, "e3"⟩, ⟨1, "e1"⟩, ⟨2, "e2"⟩]
      = completePayload [⟨1, "e1"⟩, ⟨2, "e2"⟩, ⟨3, "e3"⟩] := by decide

example :
    ¬ completePayload [⟨1, "a"⟩, ⟨1, "b"⟩] = completePayload [⟨1, "b"⟩, ⟨1, "a"⟩] := by decide

/-- An `ElementTree` document, modeled by its descendant elements in document
order, each as `(tag, text)`; a namespaced tag is written in ElementTree's
expanded `{uri}local` form.  `root.find(".//T")` returns the first descendant
whose tag is `T`. -/
def findDesc (t : String) : List (String × Option String) → Option (String × Option String)
  | [] => none
  | e :: es => if e.1 = t then some e else findDesc t es

/-- The expanded tag that `find(".//s3:ETag", {"s3": "http://s3.amazonaws.com/doc/2006-03-01/"})`
looks up (`minio_multipart.py:288-289`). -/
def nsETag : String := "{http://s3.amazonaws.com/doc/2006-03-01/}ETag"

/-- Response parsing of `complete_upload` (`minio_multipart.py:284-293`):
look for a namespaced `ETag`, fall back to a bare `ETag`; the resulting
`final_etag` is the found element's text, or `None` when neither is present
(or the element has no text). -/
def parseCompleteResponse (resp : List (String × Option String)) : Option String :=
  match findDesc nsETag resp with
  | some e => e.2
  | none =>
    match findDesc "ETag" resp with
    | some e => e.2
    | none => none

/-- The dict returned by `complete_upload` (`minio_multipart.py:295-299`). -/
structure CompleteResult where
  status : String
  final_etag : Option String
  verified : Bool
deriving DecidableEq, Repr

/-- `MinioMultipartService.complete_upload` (`minio_multipart.py:239-299`):
first component is the wire payload submitted to the store, second the result
built from the store's (already received) response `resp`.  There is no error
path after the store call returns: the result always carries
`status = "completed"` and `verified = True`. -/
def complete_upload (parts : List Part) (resp : List (String × Option String)) :
    String × CompleteResult :=
  (completePayload parts,
   { status := "completed", final_etag := parseCompleteResponse resp, verified := true })

/-- A `{part_number, url, expires_at}` dict (`minio_multipart.py:231-235`). -/
structure PresignedUrl where
  part_number : Int
  url : String
  expires_at : String
deriving DecidableEq, Repr

/-- `MinioMultipartService.generate_batch_presigned_urls` (`minio_multipart.py:202-237`).
`presign` stands for `generate_presigned_url_for_part` with bucket, key, upload
id and expiry already applied (purely local URL signing); `isoformat` for
`datetime.isoformat`, and `now`/`expires` for `datetime.utcnow()` and the expiry
delta.  `expires_at` is computed once, before the loop; the loop then appends one
grant per requested part number. -/
def generate_batch_presigned_urls (presign : Int → String) (isoformat : Int → String)
    (now expires : Int) (part_numbers : List Int) : List PresignedUrl :=
  let expires_at := isoformat (now + expires) ++ "Z"
  part_numbers.foldl
    (fun result pn => result ++ [{ part_number := pn, url := presign pn, expires_at := expires_at }])
    []

/-- A store-level error: `minio.error.S3Error`, the store's rejection of a
request (e.g. `NoSuchUpload` for an unknown or already-finalized upload id). -/
structure S3Error where
  code : String
  message : String
deriving DecidableEq, Repr

/-- `MinioMultipartService.abort_upload` (`minio_multipart.py:301-327`).
The store's outcome for the `DELETE ?uploadId=` call is passed in: `Except.ok ()`
when the call succeeds, `Except.error e` when the store rejects it with an
`S3Error`.  The `try/except S3Error` maps every store-level error to `False`;
the return type `Bool` (not an exception monad) reflects that no exceptional
outcome leaves the function on any store outcome. -/
def abort_upload (store_result : Except S3Error Unit) : Bool :=
  match store_result with
  | .ok _ => true
  | .error _ => false

/-- Python `str.split(",")` (`upload.py:112`), on the character list:
splits at every comma; the empty string yields `[""]`. -/
def splitOnCommaChars (cs : List Char) : List (List Char) :=
  cs.foldr
    (fun c acc =>
      match acc with
      | [] => [[c]]
      | cur :: rest => if c = ',' then [] :: cur :: rest else (c :: cur) :: rest)
    [[]]

def splitOnComma (s : String) : List String := (splitOnCommaChars s.data).map String.mk

example : splitOnComma "" = [""] := by decide
example : splitOnComma "a,b" = ["a", "b"] := by decide
example : splitOnComma "1, 2,,3" = ["1", " 2", "", "3"] := by decide

/-- Python `str.strip()` (`upload.py:112`): drop leading and trailing whitespace. -/
def pyStrip (s : String) : String :=
  String.mk (((s.data.dropWhile Char.isWhitespace).reverse.dropWhile Char.isWhitespace).reverse)

/-- Python `int(s)` on an already-stripped string: an optional sign followed by
one or more ASCII digits; anything else raises `ValueError`, embedded as `none`. -/
def pyInt (s : String) : Option Int :=
  let digits : List Char → Option Int := fun ds =>
    if ds ≠ [] ∧ ds.all Char.isDigit then
      some (Int.ofNat (ds.foldl (fun acc c => acc * 10 + (c.toNat - 48)) 0))
    else none
  match s.data with
  | '-' :: rest => (digits rest).map (fun n => -n)
  | '+' :: rest => digits rest
  | ds => digits ds

example : pyInt "42" = some 42 := by decide
example : pyInt "-7" = some (-7) := by decide
example : pyInt "a" = none := by decide
example : pyInt "" = none := by decide

/-- The comprehension `[int(p.strip()) for p in part_numbers.split(",") if p.strip()]`
(`upload.py:112`); a `ValueError` from any `int(...)` aborts the whole
comprehension, embedded as `none`. -/
def parsePartNumbers (s : String) : Option (List Int) :=
  let pieces := ((splitOnComma s).map pyStrip).filter (fun p => p ≠ "")
  pieces.foldr
    (fun p acc =>
      match pyInt p, acc with
      | some n, some ns => some (n :: ns)
      | _, _ => none)
    (some [])

example : parsePartNumbers "" = some [] := by decide
example : parsePartNumbers "a,b" = none := by decide
example : parsePartNumbers "3, 1 ,2" = some [3, 1, 2] := by decide

/-- Outcome of a FastAPI endpoint handler: a response value, or an
`HTTPException(status_code, detail)` reaching the framework. -/
inductive HandlerResult (α : Type) where
  | ok (value : α)
  | httpError (status : Nat) (detail : String)
deriving DecidableEq, Repr

/-- The `GET /api/upload/presign` handler `get_presigned_urls` (`upload.py:98-134`).
Control flow of the source, including its exception handling: the
`HTTPException(400, ...)` raised inside the `try` block for an empty or
oversized part list is NOT re-raised as-is — it is caught by the trailing
blanket `except Exception as e` clause (it is not a `ValueError`) and replaced
by `HTTPException(500, str(e))`, so those two failures surface with status 500.
Only the `ValueError` from `int(...)` on an unparsable list reaches the
`except ValueError` clause and yields status 400. -/
def get_presigned_urls (presign : Int → String) (isoformat : Int → String)
    (now expires : Int) (part_numbers : String) : HandlerResult (List PresignedUrl) :=
  match parsePartNumbers part_numbers with
  | none => .httpError 400 "Invalid part numbers format"
  | some parts =>
    if parts.isEmpty then
      .httpError 500 "No valid part numbers provided"
    else if parts.length > 100 then
      .httpError 500 "Maximum 100 parts per request"
    else
      .ok (generate_batch_presigned_urls presign isoformat now expires parts)

/-! Helper lemmas about ceiling division. -/

theorem cdiv_le_iff (a b m : Int) (hb : 0 < b) : cdiv a b ≤ m ↔ a ≤ b * m := by
  unfold cdiv
  rw [neg_le, Int.le_ediv_iff_mul_le hb, neg_mul, neg_le_neg_iff, mul_comm]

theorem cdiv_pos {a b : Int} (ha : 0 < a) (hb : 0 < b) : 0 < cdiv a b := by
  by_contra h
  push_neg at h
  have := (cdiv_le_iff a b 0 hb).mp h
  simp only [mul_zero] at this
  omega

/-! The claims. -/

/-- C4: for every `fileSize` in `[1, preferred * maxParts]` with a positive
preferred chunk size and part ceiling, `planChunks` returns
`chunkSize = preferred` and `totalParts = ceil(fileSize / preferred)`, and this
part count is at most `maxParts`.  (The default instance — 1 GiB at
`preferred = 128 MiB`, `maxParts = 10000` giving `(134217728, 8)` — is the
witness below.) -/
theorem c4_preferred_in_range (cfg : Config) (fs : Int)
    (hp : 0 < cfg.chunk_size_mb) (hm : 0 < cfg.max_parts)
    (h1 : 1 ≤ fs) (h2 : fs ≤ cfg.chunk_size_mb * 1024 * 1024 * cfg.max_parts) :
    planChunks cfg fs
        = (cfg.chunk_size_mb * 1024 * 1024, cdiv fs (cfg.chunk_size_mb * 1024 * 1024))
      ∧ cdiv fs (cfg.chunk_size_mb * 1024 * 1024) ≤ cfg.max_parts := by
  have hpref : (0 : Int) < cfg.chunk_size_mb * 1024 * 1024 := by positivity
  have hcond : cdiv fs (cfg.chunk_size_mb * 1024 * 1024) ≤ cfg.max_parts :=
    (cdiv_le_iff fs (cfg.chunk_size_mb * 1024 * 1024) cfg.max_parts hpref).mpr h2
  refine ⟨?_, hcond⟩
  simp only [planChunks, calculate_optimal_chunk_size]
  rw [if_pos hcond]

/-- C4 witness: the 1 GiB scenario at the default configuration. -/
theorem c4_preferred_in_range_witness :
    (1 : Int) ≤ 1073741824 ∧ planChunks defaultConfig 1073741824 = (134217728, 8) :=
  ⟨by decide, by
    have h := (c4_preferred_in_range defaultConfig 1073741824 (by decide) (by decide)
      (by decide) (by decide)).1
    exact h.trans (by decide)⟩

/-- C1 (code bug): `fileSize = 5368709120001` needs `10001 > 10000` parts even at
the 512 MiB ceiling, yet `calculate_optimal_chunk_size` raises nothing — it has
no failure path at all — and returns the clamped 512 MiB chunk size, so
`initiate` silently plans an oversized session of `10001` parts instead of
failing with `PlanningError` as the specification requires. -/
theorem c1_oversized_returns_clamped :
    (10000 : Int) < cdiv 5368709120001 (512 * 1024 * 1024)
      ∧ calculate_optimal_chunk_size defaultConfig 5368709120001 = 536870912
      ∧ planChunks defaultConfig 5368709120001 = (536870912, 10001) := by decide

/-- C3 (code bug): `initiate_upload` performs no validation of `file_size`.
At `file_size = 0` (and likewise `-5`) it computes `chunk_size = 134217728`,
`total_parts = 0`, issues the multipart-create call against the store, and
returns an `UploadSession` — instead of failing with `InvalidInput` without
creating a store session as the specification requires. -/
theorem c3_initiate_accepts_nonpositive :
    initiate_upload defaultConfig "uploads" "20240101_f.bin" "application/octet-stream" 0 "uid"
        = ({ upload_id := "uid", bucket := "uploads", object_key := "20240101_f.bin",
             chunk_size := 134217728, total_parts := 0 },
           [StoreOp.createMultipart "uploads" "20240101_f.bin" "application/octet-stream"])
      ∧ initiate_upload defaultConfig "uploads" "20240101_f.bin" "application/octet-stream" (-5) "uid"
        = ({ upload_id := "uid", bucket := "uploads", object_key := "20240101_f.bin",
             chunk_size := 134217728, total_parts := 0 },
           [StoreOp.createMultipart "uploads" "20240101_f.bin" "application/octet-stream"]) := by
  decide

/-- C2 counterexample: at `fileSize = 1509949440000` (defaults), the preferred
size would need `11250 > 10000` parts, `ceil(fileSize/maxParts) = 150994944` is
itself an exact multiple of 16 MiB (`9 * 16777216`), yet the planner returns
`167772160` — the NEXT multiple — not `150994944` unchanged as the claim states. -/
theorem c2_counterexample :
    (10000 : Int) < cdiv 1509949440000 (128 * 1024 * 1024)
      ∧ cdiv 1509949440000 10000 = 150994944
      ∧ (150994944 : Int) % (16 * 1024 * 1024) = 0
      ∧ calculate_optimal_chunk_size defaultConfig 1509949440000 = 167772160
      ∧ (167772160 : Int) ≠ 150994944 := by decide

/-- C2 amended: when the preferred chunk size would need more than `maxParts`
parts, the planner returns the smallest multiple of 16 MiB STRICTLY GREATER
than `ceil(fileSize / maxParts)` (an exactly-aligned value is bumped by one
16 MiB step), clamped to 512 MiB.  The last three conjuncts characterise the
aligned value as that smallest strictly-greater multiple: it is a multiple of
16 MiB, exceeds `minRequired`, and is within one step of it. -/
theorem c2_aligned_strictly_up (cfg : Config) (fs : Int)
    (hbr : cfg.max_parts < cdiv fs (cfg.chunk_size_mb * 1024 * 1024)) :
    calculate_optimal_chunk_size cfg fs
        = min ((cdiv fs cfg.max_parts / (16 * 1024 * 1024) + 1) * (16 * 1024 * 1024))
            (512 * 1024 * 1024)
      ∧ (cdiv fs cfg.max_parts / (16 * 1024 * 1024) + 1) * (16 * 1024 * 1024)
          % (16 * 1024 * 1024) = 0
      ∧ cdiv fs cfg.max_parts
          < (cdiv fs cfg.max_parts / (16 * 1024 * 1024) + 1) * (16 * 1024 * 1024)
      ∧ (cdiv fs cfg.max_parts / (16 * 1024 * 1024) + 1) * (16 * 1024 * 1024)
          ≤ cdiv fs cfg.max_parts + 16 * 1024 * 1024 := by
  refine ⟨?_, by omega, Int.lt_ediv_add_one_mul_self _ (by norm_num), ?_⟩
  · simp only [calculate_optimal_chunk_size]
    rw [if_neg (not_le.mpr hbr)]
  · have h := Int.ediv_mul_le (cdiv fs cfg.max_parts)
      (show (16 * 1024 * 1024 : Int) ≠ 0 by norm_num)
    linarith

/-- C2 amended witness: the counterexample input, now matching the amended claim. -/
theorem c2_aligned_strictly_up_witness :
    defaultConfig.max_parts < cdiv 1509949440000 (defaultConfig.chunk_size_mb * 1024 * 1024)
      ∧ calculate_optimal_chunk_size defaultConfig 1509949440000
          = min ((cdiv 1509949440000 defaultConfig.max_parts / (16 * 1024 * 1024) + 1)
              * (16 * 1024 * 1024)) (512 * 1024 * 1024) :=
  ⟨by decide, (c2_aligned_strictly_up defaultConfig 1509949440000 (by decide)).1⟩

/-- C8 counterexample: the claim quantifies over EVERY configuration, but with
`CHUNK_SIZE_MB = 1` (a configuration the code accepts) and `fileSize = 1` the
planner returns 1 MiB, below the 5 MiB floor — the source's `min_chunk`
variable is computed and never used. -/
theorem c8_counterexample :
    calculate_optimal_chunk_size { chunk_size_mb := 1, max_parts := 10000 } 1 = 1048576
      ∧ (1048576 : Int) < 5 * 1024 * 1024 := by decide

/-- C8 amended: for every `fileSize ≥ 1` and every configuration whose preferred
chunk size itself lies in `[5 MiB, 512 MiB]` and whose part ceiling is positive
(the defaults qualify), the returned chunk size lies in `[5 MiB, 512 MiB]`. -/
theorem c8_chunk_bounds (cfg : Config) (fs : Int)
    (h1 : 5 * 1024 * 1024 ≤ cfg.chunk_size_mb * 1024 * 1024)
    (h2 : cfg.chunk_size_mb * 1024 * 1024 ≤ 512 * 1024 * 1024)
    (h3 : 0 < cfg.max_parts) (h4 : 1 ≤ fs) :
    5 * 1024 * 1024 ≤ calculate_optimal_chunk_size cfg fs
      ∧ calculate_optimal_chunk_size cfg fs ≤ 512 * 1024 * 1024 := by
  simp only [calculate_optimal_chunk_size]
  by_cases hc : cdiv fs (cfg.chunk_size_mb * 1024 * 1024) ≤ cfg.max_parts
  · rw [if_pos hc]
    exact ⟨h1, h2⟩
  · rw [if_neg hc]
    refine ⟨le_min ?_ (by norm_num), min_le_right _ _⟩
    have hm : 0 < cdiv fs cfg.max_parts := cdiv_pos (by linarith) h3
    have hq : 0 ≤ cdiv fs cfg.max_parts / (16 * 1024 * 1024) :=
      Int.ediv_nonneg (le_of_lt hm) (by norm_num)
    linarith

/-- C8 amended witness: the default configuration at `fileSize = 1`. -/
theorem c8_chunk_bounds_witness :
    (0 : Int) < defaultConfig.max_parts
      ∧ (5 * 1024 * 1024 ≤ calculate_optimal_chunk_size defaultConfig 1
          ∧ calculate_optimal_chunk_size defaultConfig 1 ≤ 512 * 1024 * 1024) :=
  ⟨by decide, c8_chunk_bounds defaultConfig 1 (by decide) (by decide) (by decide) (by decide)⟩

/-- C5 counterexample: the claim quantifies over EVERY list of parts, but
Python's `sorted` is stable, so two parts sharing `part_number = 1` keep their
input order: the two permutations serialize to different payloads (the ETags
`a` and `b` swap). -/
theorem c5_counterexample :
    ([⟨1, "a"⟩, ⟨1, "b"⟩] : List Part).Perm [⟨1, "b"⟩, ⟨1, "a"⟩]
      ∧ completePayload [⟨1, "a"⟩, ⟨1, "b"⟩] ≠ completePayload [⟨1, "b"⟩, ⟨1, "a"⟩] := by
  decide

/-- C5 amended: for every list of parts whose part numbers are pairwise
distinct (the data model's invariant: `partNumber` uniquely identifies a part
within a session), every permutation of it serializes to the identical
completion payload, because parts are sorted ascending by `partNumber` before
serialization. -/
theorem c5_payload_perm_invariant (l1 l2 : List Part) (hp : l1.Perm l2)
    (hn : (l1.map Part.part_number).Nodup) :
    completePayload l1 = completePayload l2 := by
  have p1 : sortParts l1 |>.Perm l1 := List.perm_insertionSort partLE l1
  have p2 : sortParts l2 |>.Perm l2 := List.perm_insertionSort partLE l2
  have s1 : List.Sorted partLE (sortParts l1) := List.sorted_insertionSort partLE l1
  have s2 : List.Sorted partLE (sortParts l2) := List.sorted_insertionSort partLE l2
  have hn1 : ((sortParts l1).map Part.part_number).Nodup :=
    ((p1.map Part.part_number).nodup_iff).mpr hn
  have hn2 : ((sortParts l2).map Part.part_number).Nodup :=
    ((p2.map Part.part_number).nodup_iff).mpr (((hp.map Part.part_number).nodup_iff).mp hn)
  have s1' : (sortParts l1).Pairwise (fun a b => a.part_number < b.part_number) :=
    (s1.and (List.pairwise_map.mp hn1)).imp fun h => lt_of_le_of_ne h.1 h.2
  have s2' : (sortParts l2).Pairwise (fun a b => a.part_number < b.part_number) :=
    (s2.and (List.pairwise_map.mp hn2)).imp fun h => lt_of_le_of_ne h.1 h.2
  haveI : IsAntisymm Part (fun a b => a.part_number < b.part_number) :=
    ⟨fun _ _ hab hba => absurd (hab.trans hba) (lt_irrefl _)⟩
  have hs : sortParts l1 = sortParts l2 :=
    List.eq_of_perm_of_sorted (p1.trans (hp.trans p2.symm)) s1' s2'
  simp only [completePayload, hs]

/-- C5 amended witness: the specification's own three-part scenario. -/
theorem c5_payload_perm_invariant_witness :
    ([⟨3, "e3"⟩, ⟨1, "e1"⟩, ⟨2, "e2"⟩] : List Part).Perm [⟨1, "e1"⟩, ⟨2, "e2"⟩, ⟨3, "e3"⟩]
      ∧ completePayload [⟨3, "e3"⟩, ⟨1, "e1"⟩, ⟨2, "e2"⟩]
          = completePayload [⟨1, "e1"⟩, ⟨2, "e2"⟩, ⟨3, "e3"⟩] :=
  ⟨by decide, c5_payload_perm_invariant _ _ (by decide) (by decide)⟩

/-- C6 (code bug): asking for zero valid part numbers (`""`) or for 101 part
numbers makes the handler raise `HTTPException(400, ...)` inside the `try`
block, but that exception is caught by the trailing `except Exception` clause
and replaced by status 500 — not the claimed `InvalidInput` (400).  Only the
unparsable list `"a,b"` (a `ValueError`) yields 400.  No grants are issued in
any of the three failure cases. -/
theorem c6_batch_errors_surface_500 :
    get_presigned_urls (fun n => toString n) (fun t => toString t) 0 24 ""
        = .httpError 500 "No valid part numbers provided"
      ∧ get_presigned_urls (fun n => toString n) (fun t => toString t) 0 24
          (String.intercalate "," ((List.range 101).map (fun n => toString (n + 1))))
          = .httpError 500 "Maximum 100 parts per request"
      ∧ get_presigned_urls (fun n => toString n) (fun t => toString t) 0 24 "a,b"
          = .httpError 400 "Invalid part numbers format" := by decide

theorem foldl_append_eq_map {α β : Type} (f : α → β) (l : List α) (acc : List β) :
    l.foldl (fun r a => r ++ [f a]) acc = acc ++ l.map f := by
  induction l generalizing acc with
  | nil => simp
  | cons a l ih => simp [ih]

/-- The batch generator is the obvious map: one grant per requested number, in
request order, all with the once-computed `expires_at`. -/
theorem generate_batch_eq_map (presign isoformat : Int → String) (now expires : Int)
    (pns : List Int) :
    generate_batch_presigned_urls presign isoformat now expires pns
      = pns.map (fun pn =>
          PresignedUrl.mk pn (presign pn) (isoformat (now + expires) ++ "Z")) := by
  simp only [generate_batch_presigned_urls]
  rw [foldl_append_eq_map]
  simp

/-- C7: for every list of at most 100 unique positive part numbers,
`generate_batch_presigned_urls` returns exactly one grant per requested part
number (same count, same numbers in request order), and every grant in the
batch carries the same `expiresAt` — the value computed once per batch from
`utcnow() + expires`, before the loop. -/
theorem c7_batch_grants (presign isoformat : Int → String) (now expires : Int)
    (pns : List Int) (h1 : pns.length ≤ 100) (h2 : pns.Nodup) (h3 : ∀ n ∈ pns, 0 < n) :
    (generate_batch_presigned_urls presign isoformat now expires pns).length = pns.length
      ∧ (generate_batch_presigned_urls presign isoformat now expires pns).map
          (fun g => g.part_number) = pns
      ∧ ∀ g ∈ generate_batch_presigned_urls presign isoformat now expires pns,
          g.expires_at = isoformat (now + expires) ++ "Z" := by
  rw [generate_batch_eq_map]
  refine ⟨by simp, ?_, ?_⟩
  · rw [List.map_map]
    have h : ((fun g : PresignedUrl => g.part_number) ∘ fun pn : Int =>
        PresignedUrl.mk pn (presign pn) (isoformat (now + expires) ++ "Z")) = id := rfl
    rw [h, List.map_id]
  intro g hg
  simp only [List.mem_map] at hg
  obtain ⟨pn, _, rfl⟩ := hg
  rfl

/-- C7 witness: a concrete three-number batch. -/
theorem c7_batch_grants_witness :
    ([1, 2, 3] : List Int).Nodup
      ∧ (generate_batch_presigned_urls (fun n => toString n) (fun t => toString t) 0 24
          [1, 2, 3]).map (fun g => g.part_number) = [1, 2, 3] :=
  ⟨by decide, (c7_batch_grants (fun n => toString n) (fun t => toString t) 0 24 [1, 2, 3]
    (by decide) (by decide) (by decide)).2.1⟩

/-- C9: `abort_upload` is a total function into `Bool` — no exceptional outcome
leaves it.  A successful store `DELETE` reports `true`; every store-level
failure (`S3Error`, e.g. `NoSuchUpload` for an unknown or already-completed
upload id) is caught by the `except S3Error` clause and mapped to `false`. -/
theorem c9_abort_never_raises :
    (∀ e : S3Error, abort_upload (Except.error e) = false)
      ∧ abort_upload (Except.ok ()) = true :=
  ⟨fun _ => rfl, rfl⟩

/-- C10: when the store's completion response contains no `ETag` element —
neither in the namespaced form nor the bare form — `complete_upload` raises
nothing: it still returns `status = "completed"`, `verified = true` and
`final_etag = none`. -/
theorem c10_missing_etag_completes (parts : List Part)
    (resp : List (String × Option String))
    (h1 : findDesc nsETag resp = none) (h2 : findDesc "ETag" resp = none) :
    (complete_upload parts resp).2
      = { status := "completed", final_etag := none, verified := true } := by
  simp only [complete_upload, parseCompleteResponse, h1, h2]

/-- C10 witness: a completion response carrying only `Location`, `Bucket` and
`Key` elements. -/
theorem c10_missing_etag_completes_witness :
    findDesc nsETag [("Location", some "http://x/y"), ("Bucket", some "b"), ("Key", some "k")]
        = none
      ∧ (complete_upload []
          [("Location", some "http://x/y"), ("Bucket", some "b"), ("Key", some "k")]).2
          = { status := "completed", final_etag := none, verified := true } :=
  ⟨by decide, c10_missing_etag_completes _ _ (by decide) (by decide)⟩

end UploadOpt
